import Mathlib

/-!
Verification of `ts/flint/windows.py`: a deferred-factory module that builds
window descriptors (an operation name plus captured arguments) and later
resolves them against a context-bound registry of window constructors.

The shallow embedding below translates the module directly:

* `WindowsFactoryBase` embeds the Python class of the same name: it stores
  the operation name (`func`, from `self._func`) and the captured argument
  tuple (`args`, from `self._args`, modelled as a `List`).  The argument
  type is a parameter `α` because Python `*args` accepts arbitrary values.
* `Registry` embeds a Java class object on which operations are looked up
  by name: attribute lookup (`__getattr__`) may fail (modelled by `Option`),
  and an invoked constructor may raise (`Except ε`) or return a window `β`.
* `WindowsFactoryBase.jwindowWith` embeds `_jwindow`, parameterised by the
  class object that the abstract `_java_cls` would return; `WindowsFactory`
  embeds the concrete subclass whose `_java_cls(sc)` is
  `java.Packages(sc).Windows`.
* `WindowsFactoryBase.toStr` embeds `__str__`, parameterised by the
  per-argument string conversion `strFn` (Python's `str`).
* `past_absolute_time` / `future_absolute_time` embed the two public
  factory functions, and `all_exports` embeds `__all__`.
-/

/-- Outcome of resolving a descriptor: either a Python-level error or a
realized window object of type `β`. `attributeError` is the "no such
attribute" failure of the registry lookup (it carries the missing operation
name); `raised` is an error raised by the invoked constructor itself. -/
inductive PyError (ε : Type) where
  | attributeError (missing : String)
  | raised (e : ε)
deriving DecidableEq, Repr

/-- A context-bound registry (a Java class object): attribute lookup by name
yields, when the attribute exists, a callable taking the argument list and
either raising (`Except.error`) or returning a window object. -/
def Registry (α ε β : Type) : Type := String → Option (List α → Except ε β)

/-- Embeds Python attribute lookup `cls.__getattr__(name)` on a registry. -/
def getattr (cls : Registry α ε β) (name : String) :
    Option (List α → Except ε β) := cls name

/-- Embeds class `WindowsFactoryBase`: `__init__(self, func, *args)` stores
`self._func = func` and `self._args = args`. -/
structure WindowsFactoryBase (α : Type) where
  func : String
  args : List α
deriving DecidableEq, Repr

/-- Embeds `WindowsFactoryBase._jwindow(self, sc)`, i.e.
`self._java_cls(sc).__getattr__(self._func)(*self._args)`, parameterised by
the class object `cls` returned by the abstract `_java_cls(sc)`.  A failed
attribute lookup is the `AttributeError` that Python raises; a successful
lookup invokes the callable on the captured arguments and returns its
outcome unchanged (a raised error is embedded via `PyError.raised`). -/
def WindowsFactoryBase.jwindowWith (w : WindowsFactoryBase α)
    (cls : Registry α ε β) : Except (PyError ε) β :=
  match getattr cls w.func with
  | none => Except.error (PyError.attributeError w.func)
  | some f =>
    match f w.args with
    | Except.ok b => Except.ok b
    | Except.error e => Except.error (PyError.raised e)

/-- Embeds `WindowsFactoryBase.__str__`:
`"%s(%s)" % (self._func, ", ".join(str(arg) for arg in self._args))`,
parameterised by the per-argument string conversion `strFn` (Python `str`). -/
def WindowsFactoryBase.toStr (strFn : α → String) (w : WindowsFactoryBase α) :
    String :=
  w.func ++ "(" ++ String.intercalate ", " (w.args.map strFn) ++ ")"

/-- Embeds `java.Packages(sc)`: the package wrapper exposing the `Windows`
Java class object obtained from a SparkContext. -/
structure JavaPackages (α ε β : Type) where
  Windows : Registry α ε β

/-- Embeds the SparkContext to the extent this module uses it: it determines
the packages wrapper that `java.Packages(sc)` yields. -/
structure SparkContext (α ε β : Type) where
  packages : JavaPackages α ε β

/-- Embeds the call `java.Packages(sc)` in `WindowsFactory._java_cls`. -/
def java.Packages (sc : SparkContext α ε β) : JavaPackages α ε β :=
  sc.packages

/-- Embeds the concrete subclass `WindowsFactory(WindowsFactoryBase)`; its
`__init__` forwards to the base unchanged, so it adds no data. -/
structure WindowsFactory (α : Type) extends WindowsFactoryBase α
deriving DecidableEq, Repr

/-- Embeds `WindowsFactory._java_cls(self, sc)`:
`return java.Packages(sc).Windows`. -/
def WindowsFactory.java_cls (_w : WindowsFactory α)
    (sc : SparkContext α ε β) : Registry α ε β :=
  (java.Packages sc).Windows

/-- Resolution of a `WindowsFactory` against a SparkContext: the base class
`_jwindow` with the subclass's `_java_cls(sc)`. -/
def WindowsFactory.jwindow (w : WindowsFactory α)
    (sc : SparkContext α ε β) : Except (PyError ε) β :=
  w.toWindowsFactoryBase.jwindowWith (w.java_cls sc)

/-- Embeds `past_absolute_time(duration)`:
`return WindowsFactory('pastAbsoluteTime', duration)`. -/
def past_absolute_time (duration : α) : WindowsFactory α :=
  ⟨⟨"pastAbsoluteTime", [duration]⟩⟩

/-- Embeds `future_absolute_time(duration)`:
`return WindowsFactory('futureAbsoluteTime', duration)`. -/
def future_absolute_time (duration : α) : WindowsFactory α :=
  ⟨⟨"futureAbsoluteTime", [duration]⟩⟩

/-- Embeds the module's `__all__` list. -/
def all_exports : List String :=
  ["past_absolute_time", "future_absolute_time"]

/-- Mapping a function over the captured arguments of a descriptor.  Used to
express that the factories treat the duration as an opaque value. -/
def WindowsFactoryBase.mapArgs (g : α → γ) (w : WindowsFactoryBase α) :
    WindowsFactoryBase γ :=
  ⟨w.func, w.args.map g⟩

/-- Spec-side comma join, written as the spec describes the rendered
argument list: the pieces joined by `", "`. -/
def commaJoin : List String → String
  | [] => ""
  | [x] => x
  | x :: xs => x ++ ", " ++ commaJoin xs

/-- An observable operation applied to a descriptor after construction:
textual rendering or resolution against some context. -/
inductive DescOp (α ε β : Type) where
  | render (strFn : α → String)
  | resolve (sc : SparkContext α ε β)

/-- The observable result of one descriptor operation. -/
inductive DescResult (ε β : Type) where
  | rendered (s : String)
  | resolved (r : Except (PyError ε) β)

/-- One step of using a descriptor: each source method reads `self._func`
and `self._args` and assigns to neither, so the post-state is the state the
method was called on. -/
def DescStep (w : WindowsFactory α) (op : DescOp α ε β) :
    WindowsFactory α × DescResult ε β :=
  match op with
  | DescOp.render strFn =>
    (w, DescResult.rendered (w.toWindowsFactoryBase.toStr strFn))
  | DescOp.resolve sc => (w, DescResult.resolved (w.jwindow sc))

/-- Running a sequence of descriptor operations, threading the state. -/
def runOps (w : WindowsFactory α) (ops : List (DescOp α ε β)) :
    WindowsFactory α :=
  ops.foldl (fun w op => (DescStep w op).1) w

theorem intercalate_go_eq (l : List String) :
    ∀ acc, String.intercalate.go acc ", " l = commaJoin (acc :: l) := by
  induction l with
  | nil => intro acc; rfl
  | cons a as ih =>
    intro acc
    show String.intercalate.go (acc ++ ", " ++ a) ", " as = _
    rw [ih]
    cases as with
    | nil => rfl
    | cons b bs => simp [commaJoin, String.append_assoc]

theorem intercalate_eq_commaJoin (l : List String) :
    String.intercalate ", " l = commaJoin l := by
  cases l with
  | nil => rfl
  | cons a as => exact intercalate_go_eq as a

/-- C1: `past_absolute_time d` yields a descriptor whose operation name is
`"pastAbsoluteTime"` and whose captured argument sequence is the one-element
tuple `(d,)`. -/
theorem past_absolute_time_descriptor (d : String) :
    (past_absolute_time d).toWindowsFactoryBase.func = "pastAbsoluteTime" ∧
    (past_absolute_time d).toWindowsFactoryBase.args = [d] :=
  ⟨rfl, rfl⟩

/-- C2: `future_absolute_time d` yields a descriptor whose operation name is
`"futureAbsoluteTime"` and whose captured argument sequence is the
one-element tuple `(d,)`. -/
theorem future_absolute_time_descriptor (d : String) :
    (future_absolute_time d).toWindowsFactoryBase.func = "futureAbsoluteTime" ∧
    (future_absolute_time d).toWindowsFactoryBase.args = [d] :=
  ⟨rfl, rfl⟩

/-- A concrete registry for witnesses: it exposes only `pastAbsoluteTime`,
whose constructor returns the number of arguments it received. -/
def demoRegistry : Registry String Unit Nat :=
  fun name =>
    if name = "pastAbsoluteTime" then some (fun xs => Except.ok xs.length)
    else none

/-- A concrete SparkContext bound to `demoRegistry`. -/
def demoSc : SparkContext String Unit Nat := ⟨⟨demoRegistry⟩⟩

/-- A concrete registry whose only operation raises, for the
error-propagation witness. -/
def demoRaisingRegistry : Registry String String Nat :=
  fun name =>
    if name = "pastAbsoluteTime" then
      some (fun _ => Except.error "requirement failed: size is not positive")
    else none

/-- A concrete SparkContext bound to `demoRaisingRegistry`. -/
def demoRaisingSc : SparkContext String String Nat := ⟨⟨demoRaisingRegistry⟩⟩

/-- C3: resolving a descriptor whose operation name is absent from the
context-bound registry yields the attribute-lookup error carrying the
missing operation name; resolving one whose name is present invokes the
registry's callable on the captured argument list (in order) and returns
its returned value unchanged. -/
theorem jwindow_resolution (w : WindowsFactory α) (sc : SparkContext α ε β) :
    (getattr (java.Packages sc).Windows w.toWindowsFactoryBase.func = none →
      w.jwindow sc =
        Except.error (PyError.attributeError w.toWindowsFactoryBase.func)) ∧
    (∀ f, getattr (java.Packages sc).Windows w.toWindowsFactoryBase.func
        = some f →
      ∀ b, f w.toWindowsFactoryBase.args = Except.ok b →
        w.jwindow sc = Except.ok b) := by
  constructor
  · intro h
    simp [WindowsFactory.jwindow, WindowsFactoryBase.jwindowWith,
      WindowsFactory.java_cls, h]
  · intro f hf b hb
    simp [WindowsFactory.jwindow, WindowsFactoryBase.jwindowWith,
      WindowsFactory.java_cls, hf, hb]

/-- Witness for C3 at concrete inputs: an absent operation name produces
the attribute error naming it, and `past_absolute_time "1d"` resolves to
the registry constructor's value. -/
theorem jwindow_resolution_witness :
    (WindowsFactory.mk ⟨"missingOp", ["1d"]⟩).jwindow demoSc
      = Except.error (PyError.attributeError "missingOp") ∧
    (past_absolute_time "1d").jwindow demoSc = Except.ok 1 := by
  constructor
  · exact (jwindow_resolution (WindowsFactory.mk ⟨"missingOp", ["1d"]⟩)
      demoSc).1 rfl
  · exact (jwindow_resolution (past_absolute_time "1d") demoSc).2
      (fun xs => Except.ok xs.length) rfl 1 rfl

/-- C4: when the invoked registry constructor raises `e`, resolution
propagates exactly that error, embedded as `PyError.raised e`; the
embedding is injective, so the error's identity (and hence its message) is
preserved and the module adds no wrapping of its own. -/
theorem jwindow_error_propagation (w : WindowsFactory α)
    (sc : SparkContext α ε β) (f : List α → Except ε β) (e : ε)
    (hf : getattr (java.Packages sc).Windows w.toWindowsFactoryBase.func
      = some f)
    (he : f w.toWindowsFactoryBase.args = Except.error e) :
    w.jwindow sc = Except.error (PyError.raised e) ∧
    ∀ e2 : ε, (PyError.raised e : PyError ε) = PyError.raised e2 → e = e2 := by
  constructor
  · simp [WindowsFactory.jwindow, WindowsFactoryBase.jwindowWith,
      WindowsFactory.java_cls, hf, he]
  · intro e2 h
    injection h

/-- Witness for C4: the raising constructor's error string comes back
verbatim inside `PyError.raised`. -/
theorem jwindow_error_propagation_witness :
    (past_absolute_time "1d").jwindow demoRaisingSc
      = Except.error
          (PyError.raised "requirement failed: size is not positive") :=
  (jwindow_error_propagation (past_absolute_time "1d") demoRaisingSc
    (fun _ => Except.error "requirement failed: size is not positive")
    "requirement failed: size is not positive" rfl rfl).1

/-- C5: descriptor creation is a total function for an arbitrary argument
type and value: it always yields the expected descriptor, and it treats the
duration as an opaque value (creation commutes with any transformation of
the argument), so no parsing or validation of the duration happens at
creation time and creation never fails. -/
theorem creation_never_raises {α γ : Type} (d : α) (g : α → γ) :
    past_absolute_time d = ⟨⟨"pastAbsoluteTime", [d]⟩⟩ ∧
    future_absolute_time d = ⟨⟨"futureAbsoluteTime", [d]⟩⟩ ∧
    (past_absolute_time (g d)).toWindowsFactoryBase
      = WindowsFactoryBase.mapArgs g (past_absolute_time d).toWindowsFactoryBase ∧
    (future_absolute_time (g d)).toWindowsFactoryBase
      = WindowsFactoryBase.mapArgs g (future_absolute_time d).toWindowsFactoryBase :=
  ⟨rfl, rfl, rfl, rfl⟩

/-- C6: the rendering of `past_absolute_time "1d"` is the literal string
`"pastAbsoluteTime(1d)"`, and in general a descriptor renders as its
operation name followed by its rendered arguments joined by `", "` inside
parentheses. -/
theorem descriptor_rendering :
    WindowsFactoryBase.toStr id (past_absolute_time "1d").toWindowsFactoryBase
      = "pastAbsoluteTime(1d)" ∧
    ∀ (α : Type) (strFn : α → String) (w : WindowsFactoryBase α),
      w.toStr strFn = w.func ++ "(" ++ commaJoin (w.args.map strFn) ++ ")" := by
  constructor
  · rfl
  · intro α strFn w
    simp [WindowsFactoryBase.toStr, intercalate_eq_commaJoin]

/-- C7: resolution depends only on the captured operation name and argument
list together with the context; two descriptors agreeing on both resolve
identically against the same context. -/
theorem resolution_extensional (w1 w2 : WindowsFactory α)
    (sc : SparkContext α ε β)
    (hf : w1.toWindowsFactoryBase.func = w2.toWindowsFactoryBase.func)
    (ha : w1.toWindowsFactoryBase.args = w2.toWindowsFactoryBase.args) :
    w1.jwindow sc = w2.jwindow sc := by
  obtain ⟨⟨f1, a1⟩⟩ := w1
  obtain ⟨⟨f2, a2⟩⟩ := w2
  cases hf
  cases ha
  rfl

/-- Witness for C7: a factory-built descriptor and a directly constructed
one with the same fields resolve identically against `demoSc`. -/
theorem resolution_extensional_witness :
    (past_absolute_time "1d").jwindow demoSc
      = (WindowsFactory.mk ⟨"pastAbsoluteTime", ["1d"]⟩).jwindow demoSc :=
  resolution_extensional (past_absolute_time "1d")
    (WindowsFactory.mk ⟨"pastAbsoluteTime", ["1d"]⟩) demoSc rfl rfl

/-- C8: a descriptor is immutable after construction: running any sequence
of post-construction operations (renderings and resolutions against
arbitrary contexts) leaves the descriptor, and in particular its operation
name and argument list, unchanged.  The descriptor value itself contains no
context (its type mentions no `SparkContext`). -/
theorem descriptor_immutable (w : WindowsFactory α)
    (ops : List (DescOp α ε β)) :
    runOps w ops = w ∧
    (runOps w ops).toWindowsFactoryBase.func = w.toWindowsFactoryBase.func ∧
    (runOps w ops).toWindowsFactoryBase.args = w.toWindowsFactoryBase.args := by
  have h : runOps w ops = w := by
    induction ops generalizing w with
    | nil => rfl
    | cons op ops ih => cases op <;> exact ih w
  exact ⟨h, by rw [h], by rw [h]⟩

/-- C9: the module's public surface (`__all__`) names exactly
`past_absolute_time` and `future_absolute_time`, and each of the two
functions returns a descriptor value (a `WindowsFactory` holding an
operation name and the argument list). -/
theorem public_surface :
    all_exports = ["past_absolute_time", "future_absolute_time"] ∧
    (∀ (α : Type) (d : α),
      ∃ nm : String, past_absolute_time d = WindowsFactory.mk ⟨nm, [d]⟩) ∧
    (∀ (α : Type) (d : α),
      ∃ nm : String, future_absolute_time d = WindowsFactory.mk ⟨nm, [d]⟩) :=
  ⟨rfl,
   fun _ _ => ⟨"pastAbsoluteTime", rfl⟩,
   fun _ _ => ⟨"futureAbsoluteTime", rfl⟩⟩

/-- C10: for any operation name and any finite argument list (any length,
including zero, over an arbitrary argument type), the constructed
descriptor stores the arguments in the given order, and its rendering is
the name, `"("`, the arguments' own string conversions joined by `", "`,
then `")"`; in particular a zero-argument descriptor renders as
`name ++ "()"`. -/
theorem constructor_and_rendering (α : Type) (strFn : α → String)
    (name : String) (xs : List α) :
    (WindowsFactoryBase.mk name xs).func = name ∧
    (WindowsFactoryBase.mk name xs).args = xs ∧
    WindowsFactoryBase.toStr strFn (WindowsFactoryBase.mk name xs)
      = name ++ "(" ++ commaJoin (xs.map strFn) ++ ")" ∧
    WindowsFactoryBase.toStr strFn (WindowsFactoryBase.mk name [])
      = name ++ "()" := by
  refine ⟨rfl, rfl, ?_, ?_⟩
  · simp [WindowsFactoryBase.toStr, intercalate_eq_commaJoin]
  · show name ++ "(" ++ String.intercalate ", " ([] : List String) ++ ")"
      = name ++ "()"
    simp [String.intercalate, String.append_assoc]
